import Mathlib

/-!
Verification development for the medorbis-ai-api chat gateway.

The repository has two HTTP surfaces with equivalent semantics:
a FastAPI application (`src/app/main.py`, `src/app/api/v1/chat.py`,
`src/app/services/chat_service.py`) and a dependency-free stdlib server
(`src/app/standalone_server.py`).  This file shallowly embeds the request
normalizer, the embedding provider, the context retriever, the prompt
assembler, the LLM fallback chain and the usage accountant of both surfaces.

External effects (environment variables, network calls) are made explicit:
the process environment is a record of optional strings, and each external
call site takes an oracle argument of type `Except String α` describing the
outcome the network would have produced; every modelled function returns,
alongside its result, the list of network calls it actually performed, so
that "no network call is attempted" is a provable statement.
Embedding-vector entries are modelled as integers: no claim depends on the
numeric content of a vector, only on its availability and emptiness.

Python string primitives (`str.split()`, `str.strip()`, `str.lower()`,
`"sep".join`, `int(...)`, substring `in`) are re-implemented here by
structural recursion over `List Char`, so that every definition evaluates
inside the kernel (core `String.trim`/`String.split` use well-founded
recursion and do not reduce under `decide`).
-/

namespace MedOrbis

/-! ## Python string primitives -/

/-- Python `str.strip()` with no argument: drop leading and trailing
whitespace. -/
def pyStrip (s : String) : String :=
  ⟨((s.data.dropWhile Char.isWhitespace).reverse.dropWhile Char.isWhitespace).reverse⟩

/-- Helper for `pySplit`: accumulate the current word (reversed) while
scanning. -/
def splitWsAux : List Char → List Char → List String
  | [], acc => if acc.isEmpty then [] else [String.mk acc.reverse]
  | c :: rest, acc =>
    if c.isWhitespace then
      if acc.isEmpty then splitWsAux rest []
      else String.mk acc.reverse :: splitWsAux rest []
    else splitWsAux rest (c :: acc)

/-- Python `str.split()` with no argument: maximal runs of non-whitespace. -/
def pySplit (s : String) : List String :=
  splitWsAux s.data []

/-- Python `len(text.split())` (`_word_count` in standalone_server.py; inline
`len(....split())` elsewhere). -/
def wordCount (s : String) : Nat :=
  (pySplit s).length

/-- Python `str.lower()` (ASCII case folding suffices for this code base). -/
def lowerStr (s : String) : String :=
  ⟨s.data.map Char.toLower⟩

/-- Python `"sep".join(parts)`. -/
def joinSep (sep : String) : List String → String
  | [] => ""
  | [x] => x
  | x :: y :: rest => x ++ sep ++ joinSep sep (y :: rest)

/-- Parse a non-empty all-digit run into a natural number. -/
def parseDigitsAux : List Char → Nat → Option Nat
  | [], acc => some acc
  | c :: rest, acc =>
    if c.isDigit then parseDigitsAux rest (acc * 10 + (c.toNat - 48)) else none

/-- Python `int(s)`: optional surrounding whitespace, optional sign, digits. -/
def pyInt? (s : String) : Option Int :=
  match (pyStrip s).data with
  | [] => none
  | c :: rest =>
    if c == '-' then
      match rest with
      | [] => none
      | _ => (parseDigitsAux rest 0).map (fun n => -(n : Int))
    else if c == '+' then
      match rest with
      | [] => none
      | _ => (parseDigitsAux rest 0).map (fun n => (n : Int))
    else (parseDigitsAux (c :: rest) 0).map (fun n => (n : Int))

/-- Python truthiness of an optional string (`os.getenv` result): `None` and
the empty string are falsy. -/
def truthy : Option String → Bool
  | none => false
  | some s => s != ""

/-- Python `a or b` over two optional strings, as in
`os.getenv("OPENAI_API_KEY") or os.getenv("OPENROUTER_API_KEY")`. -/
def pyOr (a b : Option String) : Option String :=
  if truthy a then a else b

/-- Boolean test that the first list is a prefix of the second. -/
def prefixCheck : List Char → List Char → Bool
  | [], _ => true
  | _ :: _, [] => false
  | a :: tlA, b :: tlB => a == b && prefixCheck tlA tlB

/-- Boolean test that the first list occurs contiguously inside the second. -/
def infixCheck (n : List Char) : List Char → Bool
  | [] => n.isEmpty
  | c :: rest => prefixCheck n (c :: rest) || infixCheck n rest

/-- Python `needle in hay` on strings. -/
def strContains (hay needle : String) : Bool :=
  infixCheck needle.data hay.data

/-! ## Data model (src/app/schemas.py) -/

/-- `Message` (schemas.py / main.py): one chat message. -/
structure Message where
  role : String
  content : String
deriving DecidableEq

/-- `Usage` (schemas.py / main.py): token accounting record.  Token counts are
word counts, hence naturally non-negative; they are carried as `Nat`. -/
structure Usage where
  input_tokens : Nat
  output_tokens : Nat
  total_tokens : Nat
deriving DecidableEq

/-- `ChatResponse` (schemas.py / main.py). -/
structure ChatResponse where
  reply : String
  usage : Usage
deriving DecidableEq

/-- `ChatRequest` (schemas.py / main.py): the v2 echo request. -/
structure ChatRequest where
  messages : List Message
  model : Option String := none
  stream : Bool := false
deriving DecidableEq

/-- `ChatV1Request` (schemas.py): the structured v1 request. -/
structure ChatV1Request where
  user_type : Int
  user_id : String
  session_id : String
  user_question : String
  user_department : String
  user_year : String
  user_semester : String
  model : Option String := none
deriving DecidableEq

/-! ## v2 echo responder -/

/-- `generate_reply` from src/app/services/chat_service.py lines 6-18; the same
logic is duplicated inline in the `/api/v2/chat` POST handler of
src/app/main.py lines 79-90. -/
def generate_reply (req : ChatRequest) : ChatResponse :=
  let last_user := req.messages.reverse.find? (fun m => lowerStr m.role == "user")
  let user_text :=
    match last_user with
    | some m => if m.content != "" then pyStrip m.content else ""
    | none => ""
  let reply_text :=
    if user_text != "" then "You said: " ++ user_text else "Hello! How can I help you?"
  let input_tokens :=
    if !req.messages.isEmpty then
      wordCount (joinSep " " (req.messages.map (fun m => m.content)))
    else 0
  let output_tokens := wordCount reply_text
  { reply := reply_text,
    usage := { input_tokens := input_tokens, output_tokens := output_tokens,
               total_tokens := input_tokens + output_tokens } }

/-- The GET echo logic shared by `/api/v1/chat/echo` (src/app/api/v1/chat.py
lines 38-47) and by the standalone `/api/v2/chat/echo` and `/api/v1/chat/echo`
GET branches (standalone_server.py lines 189-197 and 215-223): the `content`
query parameter, `None` when absent, is or-defaulted to the empty string and
stripped before the emptiness test. -/
def chat_echo (content : Option String) : ChatResponse :=
  let user_text := pyStrip (content.getD "")
  let reply_text :=
    if user_text != "" then "You said: " ++ user_text else "Hello! How can I help you?"
  { reply := reply_text,
    usage := { input_tokens := wordCount user_text, output_tokens := wordCount reply_text,
               total_tokens := wordCount user_text + wordCount reply_text } }

/-! ## Environment and network-effect model -/

/-- The process environment, read via `os.getenv` at call time.  Every entry is
an optional string; an unset variable is `none`. `QDRANT_TOP_K` is carried as
an already-parsed optional count (the code does int(os.getenv(QDRANT_TOP_K, 3));
no claim exercises an unparsable value). -/
structure Env where
  openrouter_api_key : Option String := none
  openai_api_key : Option String := none
  openai_base_url : Option String := none
  openrouter_model : Option String := none
  openai_model : Option String := none
  embedding_model : Option String := none
  openrouter_site_url : Option String := none
  openrouter_app_name : Option String := none
  qdrant_url : Option String := none
  qdrant_api_key : Option String := none
  qdrant_collection : Option String := none
  qdrant_vector_name : Option String := none
  qdrant_top_k : Option Nat := none
  huggingface_api_key : Option String := none
  huggingface_api_url : Option String := none
  sentence_model : Option String := none
deriving DecidableEq

/-- An environment with nothing configured. -/
def envEmpty : Env := {}

/-- One outgoing HTTP request, tagged by its call site. -/
inductive NetCall where
  /-- OpenAI/OpenRouter embeddings request (`_embed_texts`). -/
  | embedCall
  /-- Hugging Face feature-extraction request (`_hf_embed`). -/
  | hfEmbedCall
  /-- Qdrant search request (`_qdrant_search` / `_qdrant_search_vec`). -/
  | qdrantCall
  /-- OpenRouter chat completion (stage 1 of the LLM chain). -/
  | llmOpenRouter
  /-- OpenAI-compatible chat completion (stage 2 of the LLM chain). -/
  | llmOpenAI
deriving DecidableEq

/-- Outcome an external call would have: a raised exception rendered as a
string, or a decoded value. -/
abbrev CallResult (α : Type) := Except String α

/-- A retrieval hit payload: the fixed priority of probed field names.  Field
values are optional strings (the only payload shapes the claims exercise). -/
structure Payload where
  text : Option String := none
  content : Option String := none
  chunk : Option String := none
  body : Option String := none

/-- Python `a or b` keeping the last operand when all are falsy. -/
def pyStrOr (a b : Option String) : Option String :=
  if truthy a then a else b

/-! ## chat_service.py: embedding, retrieval, LLM chain -/

/-- `_embed_texts` (chat_service.py lines 21-37): prefer the OpenAI key, fall
back to the OpenRouter key; with neither, return `None` without any network
call.  A configured key leads to exactly one embeddings request whose outcome
is the oracle; any exception yields `None`. -/
def embed_texts (env : Env) (oracle : CallResult (List (List Int)))
    (texts : List String) : Option (List (List Int)) × List NetCall :=
  let key := pyOr env.openai_api_key env.openrouter_api_key
  if !truthy key then (none, [])
  else
    match oracle with
    | .ok vecs => (some vecs, [NetCall.embedCall])
    | .error _ => (none, [NetCall.embedCall])

/-- First truthy context-field value of a chat_service payload
(`payload.get("text") or payload.get("content") or payload.get("chunk")`). -/
def payloadText (p : Payload) : Option String :=
  pyStrOr p.text (pyStrOr p.content p.chunk)

/-- Context extraction loop of `_qdrant_search` (chat_service.py lines 53-59):
keep each truthy probed value. -/
def extract_contexts (ps : List Payload) : List String :=
  ps.filterMap (fun p =>
    match payloadText p with
    | some t => if t != "" then some t else none
    | none => none)

/-- `_qdrant_search` (chat_service.py lines 40-61): with no `QDRANT_URL`,
return `[]` immediately; otherwise embed the query (no network if no LLM key),
and only with a non-empty embedding perform one search call; every exception
collapses to `[]`. -/
def qdrant_search (env : Env) (embedOracle : CallResult (List (List Int)))
    (searchOracle : CallResult (List Payload)) (query : String) :
    List String × List NetCall :=
  if !truthy env.qdrant_url then ([], [])
  else
    match embed_texts env embedOracle [query] with
    | (none, t) => ([], t)
    | (some [], t) => ([], t)
    | (some (v :: _), t) =>
      let _ := v
      match searchOracle with
      | .error _ => ([], t ++ [NetCall.qdrantCall])
      | .ok res => (extract_contexts res, t ++ [NetCall.qdrantCall])

/-- The RAG prompt of `generate_v1_llm_reply` (chat_service.py lines 69-79). -/
def v1_prompt (req : ChatV1Request) (contexts : List String) : String :=
  "You are a helpful assistant. Use the provided user context to answer the question.\n\n"
  ++ "user_type: " ++ toString req.user_type ++ "\n"
  ++ "user_id: " ++ req.user_id ++ "\n"
  ++ "session_id: " ++ req.session_id ++ "\n"
  ++ "department: " ++ req.user_department ++ "\n"
  ++ "year: " ++ req.user_year ++ "\n"
  ++ "semester: " ++ req.user_semester ++ "\n"
  ++ (if !contexts.isEmpty then
        "\nRelevant context from search:\n" ++ joinSep "\n---\n" contexts ++ "\n"
      else "\n")
  ++ "\nQuestion: " ++ req.user_question ++ "\n"

/-- Outcomes of the two chat-completion call sites.  A success carries the
optional `message.content` (the code does `(resp.choices[0].message.content
or "").strip()`). -/
structure LlmOracle where
  routing : CallResult (Option String)
  direct : CallResult (Option String)

/-- Result of the v1 pipeline together with its outgoing-call trace. -/
structure V1Result where
  resp : ChatResponse
  calls : List NetCall

/-- `generate_v1_llm_reply` (chat_service.py lines 64-158): retrieval for
`user_type == 0`, prompt assembly, then the two-stage LLM fallback chain ending
in the local template.  Each stage is guarded by its credential, performs at
most one call, and converts any exception into a textual reply. -/
def generate_v1_llm_reply (env : Env) (embedOracle : CallResult (List (List Int)))
    (searchOracle : CallResult (List Payload)) (llm : LlmOracle)
    (req : ChatV1Request) : V1Result :=
  let cr :=
    if req.user_type == 0 then qdrant_search env embedOracle searchOracle req.user_question
    else ([], [])
  let contexts := cr.1
  let trace0 := cr.2
  let prompt := v1_prompt req contexts
  let tokens_in := wordCount prompt
  if truthy env.openrouter_api_key then
    match llm.routing with
    | .ok content =>
      let reply_text := pyStrip (content.getD "")
      ⟨⟨reply_text, ⟨tokens_in, wordCount reply_text, tokens_in + wordCount reply_text⟩⟩,
        trace0 ++ [NetCall.llmOpenRouter]⟩
    | .error e =>
      let fallback := "[OpenRouter error] " ++ e ++ "."
      let reply_text :=
        fallback ++ " Based on your context, here\x27s a response: " ++ req.user_question
      ⟨⟨reply_text, ⟨tokens_in, wordCount reply_text, tokens_in + wordCount reply_text⟩⟩,
        trace0 ++ [NetCall.llmOpenRouter]⟩
  else if truthy env.openai_api_key then
    match llm.direct with
    | .ok content =>
      let reply_text := pyStrip (content.getD "")
      ⟨⟨reply_text, ⟨tokens_in, wordCount reply_text, tokens_in + wordCount reply_text⟩⟩,
        trace0 ++ [NetCall.llmOpenAI]⟩
    | .error e =>
      let reply_text :=
        "[LLM error] " ++ e ++ ". Falling back to local response: " ++ req.user_question
      ⟨⟨reply_text, ⟨tokens_in, wordCount reply_text, tokens_in + wordCount reply_text⟩⟩,
        trace0 ++ [NetCall.llmOpenAI]⟩
  else
    let reply_text :=
      "[Local] Based on your context (dept=" ++ req.user_department
      ++ ", year=" ++ req.user_year ++ ", semester=" ++ req.user_semester
      ++ "), here\x27s a helpful response to your question: " ++ req.user_question
    ⟨⟨reply_text, ⟨tokens_in, wordCount reply_text, tokens_in + wordCount reply_text⟩⟩, trace0⟩

/-! ## standalone_server.py: embedding, retrieval, v1 reply -/

/-- The decoded JSON the Hugging Face feature-extraction endpoint returned:
a list whose first element is a number (one vector), a list whose first
element is a list (a matrix), or anything else (including the empty list),
which `_hf_embed` maps to `None`. -/
inductive HFParsed where
  | numbers (v : List Int)
  | matrix (m : List (List Int))
  | other
deriving DecidableEq

/-- `_hf_embed` (standalone_server.py lines 57-83): the request is sent
unconditionally — a missing `HUGGINGFACE_API_KEY` only omits the Authorization
header, it does not suppress the call.  Every exception path returns `None`
after logging. -/
def hf_embed (env : Env) (oracle : CallResult HFParsed) :
    Option (List (List Int)) × List NetCall :=
  let _ := env.huggingface_api_key
  match oracle with
  | .error _ => (none, [NetCall.hfEmbedCall])
  | .ok (HFParsed.numbers v) => (some [v], [NetCall.hfEmbedCall])
  | .ok (HFParsed.matrix m) => (some m, [NetCall.hfEmbedCall])
  | .ok HFParsed.other => (none, [NetCall.hfEmbedCall])

/-- One exact-match clause of a Qdrant `must` filter. -/
structure FilterClause where
  key : String
  value : String
deriving DecidableEq

/-- `_build_qdrant_filter` (standalone_server.py lines 88-96): a `must`
conjunction holding one exact-match clause per non-empty field, `None` when
every field is empty. -/
def build_qdrant_filter (dept year sem : String) : Option (List FilterClause) :=
  let must :=
    (if dept != "" then [FilterClause.mk "Department" dept] else [])
    ++ (if year != "" then [FilterClause.mk "Year" year] else [])
    ++ (if sem != "" then [FilterClause.mk "Semester" sem] else [])
  if !must.isEmpty then some must else none

/-- `_qdrant_search_vec` (standalone_server.py lines 99-136): with no
`QDRANT_URL` return `[]` with no call, otherwise perform exactly one search
request carrying the given filter and limit; every exception collapses to
`[]`. -/
def qdrant_search_vec (env : Env) (oracle : CallResult (List Payload))
    (vec : List Int) (q_filter : Option (List FilterClause)) (limit : Nat) :
    List Payload × List NetCall :=
  let _ := (vec, q_filter, limit)
  if !truthy env.qdrant_url then ([], [])
  else
    match oracle with
    | .ok res => (res, [NetCall.qdrantCall])
    | .error _ => ([], [NetCall.qdrantCall])

/-- `_qdrant_contexts_from_results` (standalone_server.py lines 139-146):
probe `text`/`content`/`chunk`/`body` in order and keep string values (over
the string-only payloads the claims exercise). -/
def qdrant_contexts_from_results (ps : List Payload) : List String :=
  ps.filterMap (fun p =>
    match pyStrOr p.text (pyStrOr p.content (pyStrOr p.chunk p.body)) with
    | some t => some t
    | none => none)

/-- The canonical v1 field map the standalone handlers pass to
`_generate_v1_reply` (built at standalone_server.py lines 228-239 and
274-284; `Department`/`Year`/`Semester` already coalesced with the legacy
names). -/
structure V1Payload where
  user_type : Int
  user_id : String
  session_id : String
  user_question : String
  department : String
  year : String
  semester : String
  model : Option String := none
deriving DecidableEq

/-- The `prompt_context` string of `_generate_v1_reply`
(standalone_server.py lines 313-321). -/
def std_prompt_context (req : V1Payload) : String :=
  "user_type: " ++ toString req.user_type ++ "\n"
  ++ "user_id: " ++ req.user_id ++ "\n"
  ++ "session_id: " ++ req.session_id ++ "\n"
  ++ "Department: " ++ req.department ++ "\n"
  ++ "Year: " ++ req.year ++ "\n"
  ++ "Semester: " ++ req.semester ++ "\n\n"
  ++ "Question: " ++ req.user_question ++ "\n"

/-- Result of the standalone v1 pipeline: the served JSON object plus the
outgoing-call trace. -/
structure V1StdResult where
  reply : String
  usage : Usage
  used_vector : Bool
  contexts_count : Nat
  calls : List NetCall
deriving DecidableEq

/-- `ApiHandler._generate_v1_reply` (standalone_server.py lines 298-343):
for `user_type == 0` with a non-empty question, always attempt the HF
embedding; on a usable vector set `used_vector`, build the metadata filter and
search Qdrant; then assemble the deterministic reply template (the separate
`[Local]` template on line 329 is dead code because `reply_parts` always
contains the `Response:` line). -/
def generate_v1_reply_std (env : Env) (hfOracle : CallResult HFParsed)
    (qOracle : CallResult (List Payload)) (req : V1Payload) : V1StdResult :=
  let dept := req.department
  let year := req.year
  let sem := req.semester
  let ctr : List String × Bool × List NetCall :=
    if req.user_type == 0 then
      if req.user_question != "" then
        let er := hf_embed env hfOracle
        match er.1 with
        | some (v :: _) =>
          if !v.isEmpty then
            let q_filter := build_qdrant_filter dept year sem
            let sr := qdrant_search_vec env qOracle v q_filter (env.qdrant_top_k.getD 3)
            (qdrant_contexts_from_results sr.1, true, er.2 ++ sr.2)
          else ([], false, er.2)
        | _ => ([], false, er.2)
      else ([], false, [])
    else ([], false, [])
  let contexts := ctr.1
  let used_vector := ctr.2.1
  let trace := ctr.2.2
  let response_line :=
    "Response: Based on your context (Department=" ++ dept ++ ", Year=" ++ year
    ++ ", Semester=" ++ sem ++ "), here\x27s a helpful response to your question: "
    ++ req.user_question
  let reply_parts :=
    (if !contexts.isEmpty then ["Relevant information:\n" ++ joinSep "\n---\n" contexts]
     else []) ++ [response_line]
  let reply_text := joinSep "\n\n" reply_parts
  let tokens_in :=
    wordCount (std_prompt_context req)
    + (if !contexts.isEmpty then wordCount (joinSep " " contexts) else 0)
  let tokens_out := wordCount reply_text
  { reply := reply_text,
    usage := ⟨tokens_in, tokens_out, tokens_in + tokens_out⟩,
    used_vector := used_vector,
    contexts_count := contexts.length,
    calls := trace }

/-! ## Request bodies and the two HTTP surfaces -/

/-- A decoded JSON value.  Numbers are integers (no claim involves JSON
floats). -/
inductive JVal where
  | jnull
  | jbool (b : Bool)
  | jnum (n : Int)
  | jstr (s : String)
  | jarr (xs : List JVal)
  | jobj (fields : List (String × JVal))

/-- Python truthiness of a decoded JSON value. -/
def jTruthy : JVal → Bool
  | .jnull => false
  | .jbool b => b
  | .jnum n => n != 0
  | .jstr s => s != ""
  | .jarr xs => !xs.isEmpty
  | .jobj fs => !fs.isEmpty

/-- Python `v or d` on decoded JSON values. -/
def pyJOr (v d : JVal) : JVal :=
  if jTruthy v then v else d

/-- The value when it is a string; `none` models the `AttributeError` /
`TypeError` a string method on another type would raise. -/
def asStr : JVal → Option String
  | .jstr s => some s
  | _ => none

/-- Python `str(v)` on a decoded JSON scalar.  Containers are abbreviated:
no claim feeds a container into a stringified field. -/
def jToStr : JVal → String
  | .jstr s => s
  | .jnum n => toString n
  | .jbool b => if b then "True" else "False"
  | .jnull => "None"
  | .jarr _ => "<list>"
  | .jobj _ => "<dict>"

/-- `dict.get(key, default)` over a decoded JSON object field list. -/
def jGetD (fs : List (String × JVal)) (k : String) (d : JVal) : JVal :=
  match fs.lookup k with
  | some v => v
  | none => d

/-- `_parse_post` (standalone_server.py lines 25-52), driven by the
lower-cased content type.  The JSON-decoding outcome of the body is the
`jsonParse` oracle; form bodies are field maps of strings (the cgi /
urlencoded mechanics belong to the library).  The two failure messages are
raised as `ValueError` and rendered here as `Except.error`. -/
def parse_post (ctype : String) (jsonParse : CallResult JVal)
    (form : List (String × String)) : Except String JVal :=
  let cl := lowerStr ctype
  if strContains cl "application/json" then
    match jsonParse with
    | .ok v => .ok v
    | .error _ => .error "Invalid JSON body"
  else if strContains cl "application/x-www-form-urlencoded" then
    .ok (JVal.jobj (form.map (fun kv => (kv.1, JVal.jstr kv.2))))
  else if strContains cl "multipart/form-data" then
    .ok (JVal.jobj (form.map (fun kv => (kv.1, JVal.jstr kv.2))))
  else .error "Unsupported Media Type. Use application/json or form-data"

/-- A Python exception class as the standalone `do_POST` dispatcher sees it:
`ValueError` (with its message) becomes a 400, anything else a 500. -/
inductive PyErr where
  | valueErr (msg : String)
  | typeErr
deriving DecidableEq

/-- The reversed-iteration loop of the standalone v2 handler
(standalone_server.py lines 256-261): first element (from the end) whose
`role` lowers to `user`; a non-dict element or a non-string truthy `role`
raises. -/
def stdFindLastUser : List JVal → Except PyErr (Option (List (String × JVal)))
  | [] => .ok none
  | m :: rest =>
    match m with
    | .jobj mfs =>
      match asStr (pyJOr (jGetD mfs "role" .jnull) (.jstr "")) with
      | none => .error .typeErr
      | some role =>
        if lowerStr role == "user" then .ok (some mfs) else stdFindLastUser rest
    | _ => .error .typeErr

/-- The content-or-empty comprehension over all messages
(standalone_server.py line 264). -/
def stdContents : List JVal → Except PyErr (List String)
  | [] => .ok []
  | m :: rest =>
    match m with
    | .jobj mfs =>
      match asStr (pyJOr (jGetD mfs "content" .jnull) (.jstr "")) with
      | none => .error .typeErr
      | some c => (stdContents rest).map (fun cs => c :: cs)
    | _ => .error .typeErr

/-- Body of the standalone v2 POST branch after `_parse_post`
(standalone_server.py lines 250-270).  `mp` is the outcome of
`json.loads` on a string-valued `messages` field. -/
def stdV2Core (data : JVal) (mp : CallResult JVal) : Except PyErr (String × Nat) :=
  match data with
  | .jobj fs =>
    let mv := pyJOr (jGetD fs "messages" .jnull) (.jarr [])
    let mres : Except PyErr JVal :=
      match mv with
      | .jstr _ =>
        match mp with
        | .ok v => .ok v
        | .error _ => .error (.valueErr "Invalid \x27messages\x27; expected JSON array")
      | v => .ok v
    match mres with
    | .error e => .error e
    | .ok (.jarr ms) =>
      match stdFindLastUser ms.reverse with
      | .error e => .error e
      | .ok last_user =>
        let utE : Except PyErr String :=
          match last_user with
          | some mfs =>
            match asStr (pyJOr (jGetD mfs "content" .jnull) (.jstr "")) with
            | none => .error .typeErr
            | some c => .ok (pyStrip c)
          | none => .ok ""
        match utE with
        | .error e => .error e
        | .ok user_text =>
          let reply_text :=
            if user_text != "" then "You said: " ++ user_text
            else "Hello! How can I help you?"
          match stdContents ms with
          | .error e => .error e
          | .ok contents =>
            let input_tokens := if !ms.isEmpty then wordCount (joinSep " " contents) else 0
            .ok (reply_text, input_tokens)
    | .ok _ => .error .typeErr
  | _ => .error .typeErr

/-- The standalone v2 POST branch: the reply/input tokens computed by
`stdV2Core` assembled into the served usage object
(standalone_server.py lines 265-270). -/
def stdV2Handle (data : JVal) (mp : CallResult JVal) : Except PyErr ChatResponse :=
  match stdV2Core data mp with
  | .error e => .error e
  | .ok rc => .ok ⟨rc.1, ⟨rc.2, wordCount rc.1, rc.2 + wordCount rc.1⟩⟩

/-- The payload-building block of the standalone v1 POST branch
(standalone_server.py lines 274-284).  The int(str(...)) coercion of user_type
raises `ValueError` on an unparsable value. -/
def stdV1Build (data : JVal) : Except PyErr V1Payload :=
  match data with
  | .jobj fs =>
    let utStr := jToStr (pyJOr (jGetD fs "user_type" (.jnum 0)) (.jstr "0"))
    match pyInt? utStr with
    | none =>
      .error (.valueErr ("invalid literal for int() with base 10: \x27" ++ utStr ++ "\x27"))
    | some ut =>
      let gs := fun k => jToStr (pyJOr (jGetD fs k (.jstr "")) (.jstr ""))
      let coalesce := fun k1 k2 =>
        jToStr (pyJOr (pyJOr (jGetD fs k1 .jnull) (jGetD fs k2 .jnull)) (.jstr ""))
      let modelV := jGetD fs "model" .jnull
      let model :=
        match modelV with
        | .jstr s => if s != "" then some s else none
        | _ => none
      .ok ⟨ut, gs "user_id", gs "session_id", gs "user_question",
        coalesce "Department" "user_department", coalesce "Year" "user_year",
        coalesce "Semester" "user_semester", model⟩
  | _ => .error .typeErr

/-- A standalone POST request: path, content-type header, the JSON-decoding
outcome of its body, its form fields, and the `json.loads` outcome for a
string `messages` field. -/
structure SReq where
  path : String
  contentType : String
  jsonParse : CallResult JVal
  form : List (String × String) := []
  messagesParse : CallResult JVal := .error "unused"

/-- A response the standalone server sends. -/
inductive StdResp where
  | ok2 (r : ChatResponse)
  | ok1 (r : V1StdResult)
  | err (status : Nat) (detail : String)

/-- HTTP status of a standalone response. -/
def StdResp.status : StdResp → Nat
  | .ok2 _ => 200
  | .ok1 _ => 200
  | .err s _ => s

/-- Detail string of a standalone error response. -/
def StdResp.detail : StdResp → Option String
  | .err _ d => some d
  | _ => none

/-- `ApiHandler.do_POST` (standalone_server.py lines 244-291): dispatch on the
path, parse the body, run the endpoint body; a `ValueError` becomes a 400
carrying its message, any other exception a 500, an unknown path a 404. -/
def std_do_POST (env : Env) (hfOracle : CallResult HFParsed)
    (qOracle : CallResult (List Payload)) (sreq : SReq) : StdResp :=
  if sreq.path == "/api/v2/chat" || sreq.path == "/v2/chat" then
    match parse_post sreq.contentType sreq.jsonParse sreq.form with
    | .error e => .err 400 e
    | .ok data =>
      match stdV2Handle data sreq.messagesParse with
      | .ok r => .ok2 r
      | .error (.valueErr m) => .err 400 m
      | .error .typeErr => .err 500 "Internal Server Error"
  else if sreq.path == "/api/v1/chat" then
    match parse_post sreq.contentType sreq.jsonParse sreq.form with
    | .error e => .err 400 e
    | .ok data =>
      match stdV1Build data with
      | .ok payload => .ok1 (generate_v1_reply_std env hfOracle qOracle payload)
      | .error (.valueErr m) => .err 400 m
      | .error .typeErr => .err 500 "Internal Server Error"
  else .err 404 "Not Found"

/-- Pydantic validation of one `Message` (role and content are required
strings). -/
def parseMessage : JVal → Option Message
  | .jobj fs =>
    match fs.lookup "role", fs.lookup "content" with
    | some (.jstr r), some (.jstr c) => some ⟨r, c⟩
    | _, _ => none
  | _ => none

/-- Pydantic validation of a `ChatRequest` (`messages` defaults to the empty
list; `model` and `stream` are not exercised by any claim and keep their
defaults). -/
def validateChatRequest (data : JVal) : Option ChatRequest :=
  match data with
  | .jobj fs =>
    match fs.lookup "messages" with
    | none => some ⟨[], none, false⟩
    | some (.jarr xs) => (xs.mapM parseMessage).map (fun ms => ⟨ms, none, false⟩)
    | some _ => none
  | _ => none

/-- Lax integer field validation (a JSON number, or a numeric string). -/
def jInt? : JVal → Option Int
  | .jnum n => some n
  | .jstr s => pyInt? s
  | _ => none

/-- Pydantic validation of a `ChatV1Request` (all fields required except the
optional `model`). -/
def validateChatV1 (data : JVal) : Option ChatV1Request :=
  match data with
  | .jobj fs => do
    let ut ← jInt? (jGetD fs "user_type" .jnull)
    let uid ← asStr (jGetD fs "user_id" .jnull)
    let sid ← asStr (jGetD fs "session_id" .jnull)
    let q ← asStr (jGetD fs "user_question" .jnull)
    let d ← asStr (jGetD fs "user_department" .jnull)
    let y ← asStr (jGetD fs "user_year" .jnull)
    let s ← asStr (jGetD fs "user_semester" .jnull)
    let model :=
      match fs.lookup "model" with
      | some (.jstr m) => some m
      | _ => none
    pure ⟨ut, uid, sid, q, d, y, s, model⟩
  | _ => none

/-- A request reaching a FastAPI handler: content-type header, the
`await req.json()` outcome, form fields, and the `json.loads` outcome for a
string `messages` form field. -/
structure FReq where
  contentType : String
  jsonParse : CallResult JVal
  form : List (String × String) := []
  messagesParse : CallResult JVal := .error "unused"

/-- A FastAPI handler outcome: a normal response, a raised `HTTPException`
with status and detail, or an exception the handler does not catch (which the
outer framework machinery turns into a 500). -/
inductive HResp where
  | success (r : ChatResponse)
  | httpError (status : Nat) (detail : String)
  | unhandled (msg : String)

/-- HTTP status of a FastAPI handler outcome (an uncaught exception surfaces
as 500). -/
def HResp.status : HResp → Nat
  | .success _ => 200
  | .httpError s _ => s
  | .unhandled _ => 500

/-- Detail string of a raised `HTTPException`. -/
def HResp.detail : HResp → Option String
  | .httpError _ d => some d
  | _ => none

/-- `form.get(k) or default` on a FastAPI form. -/
def pyFormOr (v : Option String) (d : String) : String :=
  match v with
  | some s => if s != "" then s else d
  | none => d

/-- The `/api/v2/chat` POST handler of src/app/main.py lines 53-90:
content-type dispatch, `messages` extraction, pydantic validation, then the
echo responder (its inline copy of `generate_reply`). -/
def fastapi_v2_chat (freq : FReq) : HResp :=
  let ct := lowerStr freq.contentType
  if strContains ct "application/json" then
    match freq.jsonParse with
    | .error e => .unhandled e
    | .ok data =>
      match validateChatRequest data with
      | none =>
        .httpError 400 "Invalid body. Expected \x7b messages: [\x7b role, content \x7d] \x7d"
      | some parsed => .success (generate_reply parsed)
  else if strContains ct "multipart/form-data"
      || strContains ct "application/x-www-form-urlencoded" then
    if (freq.form.lookup "messages").isSome then
      match freq.messagesParse with
      | .error _ => .httpError 400 "Invalid \x27messages\x27 in form; expected JSON string"
      | .ok v =>
        match validateChatRequest (.jobj [("messages", v)]) with
        | none =>
          .httpError 400 "Invalid body. Expected \x7b messages: [\x7b role, content \x7d] \x7d"
        | some parsed => .success (generate_reply parsed)
    else
      let role := pyStrip (pyFormOr (freq.form.lookup "role") "user")
      let content := pyStrip (pyFormOr (freq.form.lookup "content") "")
      .success (generate_reply ⟨[⟨role, content⟩], none, false⟩)
  else
    .httpError 415 "Unsupported Media Type. Use application/json or form-data with \x27messages\x27"

/-- The `/api/v1/chat` POST handler of src/app/api/v1/chat.py lines 74-100:
content-type dispatch, form coercion (`int(form.get("user_type", 0))` raises
out of the handler on an unparsable value), pydantic validation, then the LLM
responder. -/
def fastapi_v1_chat (env : Env) (embedOracle : CallResult (List (List Int)))
    (searchOracle : CallResult (List Payload)) (llm : LlmOracle)
    (freq : FReq) : HResp :=
  let ct := lowerStr freq.contentType
  if strContains ct "application/json" then
    match freq.jsonParse with
    | .error e => .unhandled e
    | .ok data =>
      match validateChatV1 data with
      | none => .httpError 400 "Invalid body. Expected v1 fields"
      | some parsed =>
        .success (generate_v1_llm_reply env embedOracle searchOracle llm parsed).resp
  else if strContains ct "multipart/form-data"
      || strContains ct "application/x-www-form-urlencoded" then
    let utRaw := (freq.form.lookup "user_type").getD ""
    let ut? : Option Int := if pyStrip utRaw != "" then pyInt? utRaw else some 0
    match ut? with
    | none => .unhandled "invalid literal for int() with base 10"
    | some ut =>
      let g := fun k => (freq.form.lookup k).getD ""
      let parsed : ChatV1Request :=
        ⟨ut, g "user_id", g "session_id", g "user_question",
          g "user_department", g "user_year", g "user_semester", none⟩
      .success (generate_v1_llm_reply env embedOracle searchOracle llm parsed).resp
  else .httpError 415 "Unsupported Media Type. Use application/json or form-data"

/-! ## Helper lemmas -/

theorem strData_append (a b : String) : (a ++ b).data = a.data ++ b.data := rfl

theorem prefixCheck_refl : ∀ l : List Char, prefixCheck l l = true
  | [] => rfl
  | c :: rest => by simp [prefixCheck, prefixCheck_refl rest]

theorem infixCheck_append_self (n : List Char) :
    ∀ l : List Char, infixCheck n (l ++ n) = true
  | [] => by
    cases n with
    | nil => rfl
    | cons c rest => simp [infixCheck, prefixCheck_refl]
  | c :: rest => by
    simp [infixCheck, infixCheck_append_self n rest]

/-- A string contains each of its suffixes; in particular every reply built as
`prefix-text ++ question` contains the question. -/
theorem strContains_append_self (a b : String) : strContains (a ++ b) b = true := by
  simpa [strContains, strData_append] using infixCheck_append_self b.data a.data

theorem qdrant_search_no_url (env : Env) (eo : CallResult (List (List Int)))
    (so : CallResult (List Payload)) (q : String) (h : truthy env.qdrant_url = false) :
    qdrant_search env eo so q = ([], []) := by
  simp [qdrant_search, h]

theorem qdrant_search_calls_mem (env : Env) (eo : CallResult (List (List Int)))
    (so : CallResult (List Payload)) (q : String) :
    ∀ c ∈ (qdrant_search env eo so q).2, c = NetCall.embedCall ∨ c = NetCall.qdrantCall := by
  intro c hc
  unfold qdrant_search embed_texts at hc
  by_cases hu : truthy env.qdrant_url
  · by_cases hk : truthy (pyOr env.openai_api_key env.openrouter_api_key)
    · cases eo with
      | ok vecs =>
        cases vecs with
        | nil => simp [hu, hk] at hc; simp [hc]
        | cons v vs =>
          cases so <;> simp [hu, hk] at hc <;> rcases hc with h | h <;> simp [h]
      | error e => simp [hu, hk] at hc; simp [hc]
    · simp [hu, hk] at hc
  · simp [hu] at hc

/-- Retrieval performed by `generate_v1_llm_reply` (the `user_type == 0` guard
included) only ever produces embedding or Qdrant calls. -/
theorem retrieval_calls_mem (env : Env) (eo : CallResult (List (List Int)))
    (so : CallResult (List Payload)) (q : String) (b : Bool) :
    ∀ c ∈ (if b then qdrant_search env eo so q
           else (([], []) : List String × List NetCall)).2,
      c = NetCall.embedCall ∨ c = NetCall.qdrantCall := by
  cases b
  · simp
  · simpa using qdrant_search_calls_mem env eo so q

theorem retrieval_no_llm_calls (env : Env) (eo : CallResult (List (List Int)))
    (so : CallResult (List Payload)) (q : String) (b : Bool) :
    NetCall.llmOpenRouter ∉ (if b then qdrant_search env eo so q
        else (([], []) : List String × List NetCall)).2
    ∧ NetCall.llmOpenAI ∉ (if b then qdrant_search env eo so q
        else (([], []) : List String × List NetCall)).2 := by
  constructor <;> intro h <;>
    rcases retrieval_calls_mem env eo so q b _ h with h' | h' <;> exact NetCall.noConfusion h'

/-- `generate_v1_llm_reply` performs at most one chat-completion call in
total, over every environment, oracle and request: no retry within a stage and
no second stage after the first was attempted. -/
theorem gen_v1_llm_call_counts (env : Env) (eo : CallResult (List (List Int)))
    (so : CallResult (List Payload)) (llm : LlmOracle) (req : ChatV1Request) :
    (generate_v1_llm_reply env eo so llm req).calls.count NetCall.llmOpenRouter
      + (generate_v1_llm_reply env eo so llm req).calls.count NetCall.llmOpenAI ≤ 1 := by
  have hor := List.count_eq_zero.mpr
    (retrieval_no_llm_calls env eo so req.user_question (req.user_type == 0)).1
  have hai := List.count_eq_zero.mpr
    (retrieval_no_llm_calls env eo so req.user_question (req.user_type == 0)).2
  simp only [beq_iff_eq] at hor hai
  unfold generate_v1_llm_reply
  by_cases h1 : truthy env.openrouter_api_key
  · cases hr : llm.routing <;>
      simp [h1, hr, List.count_append, hor, hai, List.count_cons]
  · by_cases h2 : truthy env.openai_api_key
    · cases hd : llm.direct <;>
        simp [h1, h2, hd, List.count_append, hor, hai, List.count_cons]
    · simp [h1, h2, hor, hai]

/-- C1: on a v1 chat request with the routing-provider (OpenRouter) credential
configured, a failing stage-1 chat-completion call is converted into a textual
reply naming the error and referencing the raw question; exactly one routing
call and no direct-provider call happen, and over all inputs at most one
chat-completion call is ever made (no retry within or across stages).  The
responder is a total function into `V1Result`, so a failure never escapes as
anything but a `ChatResponse`. -/
theorem C1_routing_failure_terminal (env : Env) (eo : CallResult (List (List Int)))
    (so : CallResult (List Payload)) (llm : LlmOracle) (req : ChatV1Request) (e : String)
    (hkey : truthy env.openrouter_api_key = true) (herr : llm.routing = .error e) :
    (generate_v1_llm_reply env eo so llm req).resp.reply
      = "[OpenRouter error] " ++ e ++ "."
        ++ " Based on your context, here\x27s a response: " ++ req.user_question
    ∧ (generate_v1_llm_reply env eo so llm req).calls.count NetCall.llmOpenRouter = 1
    ∧ (generate_v1_llm_reply env eo so llm req).calls.count NetCall.llmOpenAI = 0
    ∧ (∀ (env2 : Env) (eo2 : CallResult (List (List Int)))
        (so2 : CallResult (List Payload)) (llm2 : LlmOracle) (req2 : ChatV1Request),
        (generate_v1_llm_reply env2 eo2 so2 llm2 req2).calls.count NetCall.llmOpenRouter
          + (generate_v1_llm_reply env2 eo2 so2 llm2 req2).calls.count NetCall.llmOpenAI ≤ 1) := by
  have hor := List.count_eq_zero.mpr
    (retrieval_no_llm_calls env eo so req.user_question (req.user_type == 0)).1
  have hai := List.count_eq_zero.mpr
    (retrieval_no_llm_calls env eo so req.user_question (req.user_type == 0)).2
  simp only [beq_iff_eq] at hor hai
  refine ⟨?_, ?_, ?_, fun env2 eo2 so2 llm2 req2 => gen_v1_llm_call_counts env2 eo2 so2 llm2 req2⟩
  · simp [generate_v1_llm_reply, hkey, herr]
  · simp [generate_v1_llm_reply, hkey, herr, List.count_append, hor, List.count_cons]
  · simp [generate_v1_llm_reply, hkey, herr, List.count_append, hai, List.count_cons]

/-- Environment with only the routing-provider credential configured. -/
def envOR : Env := { openrouter_api_key := some "k" }

/-- A concrete RAG-eligible v1 request. -/
def reqV1A : ChatV1Request := ⟨0, "u1", "s1", "What is anatomy?", "Nursing", "3", "1", none⟩

theorem C1_routing_failure_terminal_witness :
    (generate_v1_llm_reply envOR (.error "net") (.error "net")
        ⟨Except.error "boom", Except.error "x"⟩ reqV1A).resp.reply
      = "[OpenRouter error] " ++ "boom" ++ "."
        ++ " Based on your context, here\x27s a response: " ++ reqV1A.user_question :=
  (C1_routing_failure_terminal envOR (.error "net") (.error "net")
    ⟨Except.error "boom", Except.error "x"⟩ reqV1A "boom" (by decide) rfl).1

/-- With neither LLM credential configured, `_qdrant_search` performs no
network call at all: `_embed_texts` bails out before its request, so the
Qdrant client is never reached. -/
theorem qdrant_search_no_llm_creds (env : Env) (eo : CallResult (List (List Int)))
    (so : CallResult (List Payload)) (q : String)
    (h1 : truthy env.openrouter_api_key = false)
    (h2 : truthy env.openai_api_key = false) :
    qdrant_search env eo so q = ([], []) := by
  have hk : truthy (pyOr env.openai_api_key env.openrouter_api_key) = false := by
    simp [pyOr, h1, h2]
  unfold qdrant_search embed_texts
  by_cases hu : truthy env.qdrant_url <;> simp [hu, hk]

/-- A v1 payload with `user_type` 0 and a non-empty question. -/
def pC2 : V1Payload := ⟨0, "u", "s", "Hello", "D", "Y", "S", none⟩

/-- C2 counterexample: with nothing configured at all (no LLM credential, no
Hugging Face credential), the standalone v1 pipeline still attempts the
Hugging Face embedding network call for a `user_type` 0 request with a
non-empty question, so "no network call attempted" is false as stated. -/
theorem C2_counterexample :
    envEmpty.openrouter_api_key = none ∧ envEmpty.openai_api_key = none
    ∧ envEmpty.huggingface_api_key = none
    ∧ (generate_v1_reply_std envEmpty (Except.error "timeout") (Except.ok []) pC2).calls
        = [NetCall.hfEmbedCall] := by
  exact ⟨rfl, rfl, rfl, by decide⟩

/-- C2 amended: with no LLM credential the FastAPI-variant v1 pipeline replies
with the deterministic local template naming department, year, semester and the
question, with no network call attempted, and two runs agree byte for byte
whatever the oracles; the standalone variant attempts the embedding call even
without credentials, but whenever that call fails its reply is the
deterministic local template naming Department, Year, Semester and the
question, identical across two runs with different transport failures. -/
theorem C2_local_template_deterministic (env : Env)
    (h1 : truthy env.openrouter_api_key = false)
    (h2 : truthy env.openai_api_key = false)
    (eo eo' : CallResult (List (List Int))) (so so' : CallResult (List Payload))
    (llm llm' : LlmOracle) (req : ChatV1Request)
    (env2 : Env) (p : V1Payload) (e e' : String)
    (qo qo' : CallResult (List Payload)) :
    (generate_v1_llm_reply env eo so llm req).resp.reply
      = "[Local] Based on your context (dept=" ++ req.user_department
        ++ ", year=" ++ req.user_year ++ ", semester=" ++ req.user_semester
        ++ "), here\x27s a helpful response to your question: " ++ req.user_question
    ∧ (generate_v1_llm_reply env eo so llm req).calls = []
    ∧ (generate_v1_llm_reply env eo so llm req).resp.reply
        = (generate_v1_llm_reply env eo' so' llm' req).resp.reply
    ∧ (generate_v1_reply_std env2 (Except.error e) qo p).reply
        = "Response: Based on your context (Department=" ++ p.department
          ++ ", Year=" ++ p.year ++ ", Semester=" ++ p.semester
          ++ "), here\x27s a helpful response to your question: " ++ p.user_question
    ∧ (generate_v1_reply_std env2 (Except.error e) qo p).reply
        = (generate_v1_reply_std env2 (Except.error e') qo' p).reply := by
  have hq := qdrant_search_no_llm_creds env eo so req.user_question h1 h2
  have hq' := qdrant_search_no_llm_creds env eo' so' req.user_question h1 h2
  refine ⟨?_, ?_, ?_, ?_, ?_⟩
  · simp [generate_v1_llm_reply, h1, h2, hq]
  · simp [generate_v1_llm_reply, h1, h2, hq]
  · simp [generate_v1_llm_reply, h1, h2, hq, hq']
  · by_cases ht : p.user_type = 0 <;> by_cases hqq : p.user_question = "" <;>
      simp [generate_v1_reply_std, hf_embed, joinSep, ht, hqq]
  · by_cases ht : p.user_type = 0 <;> by_cases hqq : p.user_question = "" <;>
      simp [generate_v1_reply_std, hf_embed, joinSep, ht, hqq]

theorem C2_local_template_deterministic_witness :
    (generate_v1_llm_reply envEmpty (Except.error "net") (Except.error "net")
        ⟨Except.error "a", Except.error "b"⟩ reqV1A).resp.reply
      = "[Local] Based on your context (dept=" ++ reqV1A.user_department
        ++ ", year=" ++ reqV1A.user_year ++ ", semester=" ++ reqV1A.user_semester
        ++ "), here\x27s a helpful response to your question: " ++ reqV1A.user_question :=
  (C2_local_template_deterministic envEmpty (by decide) (by decide)
    (Except.error "net") (Except.error "net2") (Except.error "net") (Except.error "net2")
    ⟨Except.error "a", Except.error "b"⟩ ⟨Except.error "c", Except.error "d"⟩ reqV1A
    envEmpty pC2 "timeout" "refused" (Except.ok []) (Except.error "x")).1

/-- The usage invariant of the spec: the total is the sum of the parts and all
three fields are non-negative integers. -/
def usageOK (u : Usage) : Prop :=
  u.total_tokens = u.input_tokens + u.output_tokens
  ∧ 0 ≤ (u.input_tokens : Int) ∧ 0 ≤ (u.output_tokens : Int) ∧ 0 ≤ (u.total_tokens : Int)

theorem usageOK_mk (i o : Nat) : usageOK ⟨i, o, i + o⟩ :=
  ⟨rfl, Int.natCast_nonneg i, Int.natCast_nonneg o, Int.natCast_nonneg (i + o)⟩

/-- Every successful standalone v2 POST response satisfies the usage
invariant. -/
theorem stdV2Handle_usage (data : JVal) (mp : CallResult JVal) (r : ChatResponse)
    (h : stdV2Handle data mp = .ok r) : usageOK r.usage := by
  unfold stdV2Handle at h
  cases hc : stdV2Core data mp with
  | error e => rw [hc] at h; simp at h
  | ok rc =>
    rw [hc] at h
    simp only [Except.ok.injEq] at h
    rw [← h]
    exact usageOK_mk _ _

/-- The usage record of the LLM responder is built as `⟨in, out, in + out⟩` in every
one of its five branches. -/
theorem gen_v1_llm_usage (env : Env) (eo : CallResult (List (List Int)))
    (so : CallResult (List Payload)) (llm : LlmOracle) (req : ChatV1Request) :
    usageOK (generate_v1_llm_reply env eo so llm req).resp.usage := by
  unfold generate_v1_llm_reply
  by_cases h1 : truthy env.openrouter_api_key
  · cases hr : llm.routing <;> simp [h1, hr] <;> exact usageOK_mk _ _
  · by_cases h2 : truthy env.openai_api_key
    · cases hd : llm.direct <;> simp [h1, h2, hd] <;> exact usageOK_mk _ _
    · simp [h1, h2]; exact usageOK_mk _ _

/-- C3: every `ChatResponse` the gateway produces — v2 echo (FastAPI and
chat_service), GET echo, the v1 LLM responder in all provider and fallback
branches, the standalone v1 pipeline, and successful standalone v2 POSTs —
carries a usage record with `total_tokens = input_tokens + output_tokens` and
three non-negative fields. -/
theorem C3_usage_invariant (req : ChatRequest) (c : Option String) (env : Env)
    (eo : CallResult (List (List Int))) (so : CallResult (List Payload)) (llm : LlmOracle)
    (v1req : ChatV1Request) (env2 : Env) (hf : CallResult HFParsed)
    (qo : CallResult (List Payload)) (p : V1Payload) (data : JVal) (mp : CallResult JVal)
    (r : ChatResponse) (hstd : stdV2Handle data mp = .ok r) :
    usageOK (generate_reply req).usage
    ∧ usageOK (chat_echo c).usage
    ∧ usageOK (generate_v1_llm_reply env eo so llm v1req).resp.usage
    ∧ usageOK (generate_v1_reply_std env2 hf qo p).usage
    ∧ usageOK r.usage :=
  ⟨usageOK_mk _ _, usageOK_mk _ _, gen_v1_llm_usage env eo so llm v1req,
    usageOK_mk _ _, stdV2Handle_usage data mp r hstd⟩

/-- A concrete well-formed standalone v2 body. -/
def dataC3 : JVal :=
  .jobj [("messages", .jarr [.jobj [("role", .jstr "user"), ("content", .jstr "Hi")]])]

theorem C3_usage_invariant_witness :
    usageOK (generate_reply ⟨[⟨"user", "Hi there"⟩], none, false⟩).usage :=
  (C3_usage_invariant ⟨[⟨"user", "Hi there"⟩], none, false⟩ (some "x") envEmpty
    (Except.error "e") (Except.error "e") ⟨Except.error "a", Except.error "b"⟩ reqV1A
    envEmpty (Except.error "e") (Except.error "e") pC2 dataC3 (Except.error "unused")
    ⟨"You said: Hi", ⟨1, 3, 4⟩⟩ rfl).1

/-- C4: the v2 echo reply is `"You said: "` followed by the content of the
last user message (taken up to its surrounding whitespace, per the handler
`strip()` call — C10 records the stripping); in particular, for
`messages=[.user "Hello world"]` the reply is `"You said: Hello world"` and
`input_tokens` is 2 (whitespace word count). -/
theorem C4_v2_echo_reply (req : ChatRequest) (m : Message)
    (hfind : req.messages.reverse.find? (fun x => lowerStr x.role == "user") = some m)
    (hne : pyStrip m.content ≠ "") :
    (generate_reply req).reply = "You said: " ++ pyStrip m.content
    ∧ (generate_reply ⟨[⟨"user", "Hello world"⟩], none, false⟩).reply = "You said: Hello world"
    ∧ (generate_reply ⟨[⟨"user", "Hello world"⟩], none, false⟩).usage.input_tokens = 2 := by
  refine ⟨?_, by decide, by decide⟩
  have hc : m.content ≠ "" := by
    intro hc0
    exact hne (by simp [hc0, pyStrip])
  simp [generate_reply, hfind, hc, hne]

theorem C4_v2_echo_reply_witness :
    (generate_reply ⟨[⟨"user", "Hello world"⟩], none, false⟩).reply
      = "You said: " ++ pyStrip ("Hello world" : String) :=
  (C4_v2_echo_reply ⟨[⟨"user", "Hello world"⟩], none, false⟩ ⟨"user", "Hello world"⟩
    (by decide) (by decide)).1

/-- C10: in both v2/echo responders the selected content is stripped before
the emptiness test — whitespace-only content yields exactly the greeting, a
missing user message yields the greeting, and every `"You said: ..."` reply
carries the stripped content, never the surrounding whitespace. -/
theorem C10_strip_before_empty_test (req : ChatRequest) (c : Option String) :
    (∀ m, req.messages.reverse.find? (fun x => lowerStr x.role == "user") = some m →
        pyStrip m.content = "" → (generate_reply req).reply = "Hello! How can I help you?")
    ∧ (req.messages.reverse.find? (fun x => lowerStr x.role == "user") = none →
        (generate_reply req).reply = "Hello! How can I help you?")
    ∧ ((generate_reply req).reply ≠ "Hello! How can I help you?" →
        ∃ m, req.messages.reverse.find? (fun x => lowerStr x.role == "user") = some m
          ∧ (generate_reply req).reply = "You said: " ++ pyStrip m.content)
    ∧ (pyStrip (c.getD "") = "" → (chat_echo c).reply = "Hello! How can I help you?")
    ∧ (pyStrip (c.getD "") ≠ "" →
        (chat_echo c).reply = "You said: " ++ pyStrip (c.getD "")) := by
  refine ⟨?_, ?_, ?_, ?_, ?_⟩
  · intro m hfind hstrip
    by_cases hc : m.content = "" <;> simp [generate_reply, hfind, hc, hstrip]
  · intro hfind
    simp [generate_reply, hfind]
  · intro hne
    cases hfind : req.messages.reverse.find? (fun x => lowerStr x.role == "user") with
    | none => exact absurd (by simp [generate_reply, hfind]) hne
    | some m =>
      refine ⟨m, rfl, ?_⟩
      by_cases hc : m.content = ""
      · exact absurd (by simp [generate_reply, hfind, hc]) hne
      · by_cases hstrip : pyStrip m.content = ""
        · exact absurd (by simp [generate_reply, hfind, hc, hstrip]) hne
        · simp [generate_reply, hfind, hc, hstrip]
  · intro hstrip
    simp [chat_echo, hstrip]
  · intro hstrip
    simp [chat_echo, hstrip]

theorem C10_strip_before_empty_test_witness :
    (chat_echo (some "  Hi  ")).reply = "You said: " ++ pyStrip ("  Hi  " : String) :=
  (C10_strip_before_empty_test ⟨[], none, false⟩ (some "  Hi  ")).2.2.2.2 (by decide)

/-- A standalone POST to the v2 chat path with an unsupported content type. -/
def sreqC5 : SReq := ⟨"/api/v2/chat", "text/plain", Except.ok JVal.jnull, [], Except.error "u"⟩

/-- C5 counterexample: the standalone server answers an unsupported content
type on a chat POST with status 400 (its `do_POST` maps every `ValueError` to
400), not 415 as the claim states for every POST endpoint. -/
theorem C5_counterexample :
    (std_do_POST envEmpty (Except.error "e") (Except.error "e") sreqC5).status = 400
    ∧ (std_do_POST envEmpty (Except.error "e") (Except.error "e") sreqC5).status ≠ 415
    ∧ (std_do_POST envEmpty (Except.error "e") (Except.error "e") sreqC5).detail
        = some "Unsupported Media Type. Use application/json or form-data" := by
  exact ⟨by decide, by decide, by decide⟩

/-- C5 amended: for a content type that is neither JSON nor a form encoding,
the FastAPI chat endpoints (v2 and v1) answer 415 with an unsupported-media-
type detail, while the standalone chat POST paths answer 400 carrying
the same unsupported-media-type detail text. -/
theorem C5_unsupported_media_type (ct : String)
    (h1 : strContains (lowerStr ct) "application/json" = false)
    (h2 : strContains (lowerStr ct) "multipart/form-data" = false)
    (h3 : strContains (lowerStr ct) "application/x-www-form-urlencoded" = false)
    (jp mp : CallResult JVal) (form : List (String × String)) (env : Env)
    (eo : CallResult (List (List Int))) (so : CallResult (List Payload)) (llm : LlmOracle)
    (hf : CallResult HFParsed) (qo : CallResult (List Payload)) :
    (fastapi_v2_chat ⟨ct, jp, form, mp⟩).status = 415
    ∧ (fastapi_v1_chat env eo so llm ⟨ct, jp, form, mp⟩).status = 415
    ∧ (std_do_POST env hf qo ⟨"/api/v2/chat", ct, jp, form, mp⟩).status = 400
    ∧ (std_do_POST env hf qo ⟨"/api/v2/chat", ct, jp, form, mp⟩).detail
        = some "Unsupported Media Type. Use application/json or form-data"
    ∧ (std_do_POST env hf qo ⟨"/api/v1/chat", ct, jp, form, mp⟩).status = 400
    ∧ (std_do_POST env hf qo ⟨"/api/v1/chat", ct, jp, form, mp⟩).detail
        = some "Unsupported Media Type. Use application/json or form-data" := by
  have hpA : (("/api/v2/chat" : String) == "/api/v2/chat") = true := by decide
  have hpB : (("/api/v1/chat" : String) == "/api/v2/chat") = false := by decide
  have hpC : (("/api/v1/chat" : String) == "/v2/chat") = false := by decide
  have hpD : (("/api/v1/chat" : String) == "/api/v1/chat") = true := by decide
  refine ⟨?_, ?_, ?_, ?_, ?_, ?_⟩
  · simp [fastapi_v2_chat, h1, h2, h3, HResp.status]
  · simp [fastapi_v1_chat, h1, h2, h3, HResp.status]
  · simp [std_do_POST, parse_post, h1, h2, h3, hpA, StdResp.status]
  · simp [std_do_POST, parse_post, h1, h2, h3, hpA, StdResp.detail]
  · simp [std_do_POST, parse_post, h1, h2, h3, hpB, hpC, hpD, StdResp.status]
  · simp [std_do_POST, parse_post, h1, h2, h3, hpB, hpC, hpD, StdResp.detail]

theorem C5_unsupported_media_type_witness :
    (fastapi_v2_chat ⟨"text/plain", Except.ok JVal.jnull, [], Except.error "u"⟩).status = 415 :=
  (C5_unsupported_media_type "text/plain" (by decide) (by decide) (by decide)
    (Except.ok JVal.jnull) (Except.error "u") [] envEmpty (Except.error "e")
    (Except.error "e") ⟨Except.error "a", Except.error "b"⟩ (Except.error "e")
    (Except.error "e")).1

/-- A FastAPI v2 request whose JSON body is malformed. -/
def freqC6 : FReq :=
  ⟨"application/json", Except.error "Expecting value: line 1 column 1 (char 0)", [],
    Except.error "u"⟩

/-- C6 counterexample: on the FastAPI v2 chat endpoint a malformed JSON body
escapes the handler (`await req.json()` is not wrapped), surfacing as the
500 of the framework, not as a 400 with a detail. -/
theorem C6_counterexample :
    (fastapi_v2_chat freqC6).status = 500
    ∧ (fastapi_v2_chat freqC6).status ≠ 400
    ∧ (fastapi_v2_chat freqC6).detail = none := by
  exact ⟨by decide, by decide, by decide⟩

/-- C6 amended: the standalone server answers a malformed JSON body on either
chat POST path with 400 and the detail `Invalid JSON body`, and an unparsable
string `messages` field with 400 naming the expected shape; the FastAPI v2
endpoint answers an unparsable form `messages` field and an invalidly shaped
body with 400 details naming the expected shape; but on the FastAPI endpoints
a malformed JSON body propagates as an uncaught exception (a framework 500),
so the universal 400 of the claim fails there. -/
theorem C6_bad_body_handling (ct : String)
    (hct : strContains (lowerStr ct) "application/json" = true)
    (e : String) (form : List (String × String)) (mp : CallResult JVal)
    (env : Env) (eo : CallResult (List (List Int))) (so : CallResult (List Payload))
    (llm : LlmOracle) (hf : CallResult HFParsed) (qo : CallResult (List Payload)) :
    (std_do_POST env hf qo ⟨"/api/v2/chat", ct, Except.error e, form, mp⟩).status = 400
    ∧ (std_do_POST env hf qo ⟨"/api/v2/chat", ct, Except.error e, form, mp⟩).detail
        = some "Invalid JSON body"
    ∧ (std_do_POST env hf qo ⟨"/api/v1/chat", ct, Except.error e, form, mp⟩).status = 400
    ∧ (std_do_POST env hf qo ⟨"/api/v1/chat", ct, Except.error e, form, mp⟩).detail
        = some "Invalid JSON body"
    ∧ (∀ (fs : List (String × JVal)) (s e2 : String),
        jGetD fs "messages" JVal.jnull = JVal.jstr s → s ≠ "" →
        (std_do_POST env hf qo
            ⟨"/api/v2/chat", ct, Except.ok (JVal.jobj fs), form, Except.error e2⟩).status = 400
        ∧ (std_do_POST env hf qo
            ⟨"/api/v2/chat", ct, Except.ok (JVal.jobj fs), form, Except.error e2⟩).detail
            = some "Invalid \x27messages\x27; expected JSON array")
    ∧ (∀ (ct2 : String) (e3 : String) (form2 : List (String × String)),
        strContains (lowerStr ct2) "application/json" = false →
        strContains (lowerStr ct2) "multipart/form-data" = true →
        (form2.lookup "messages").isSome = true →
        (fastapi_v2_chat ⟨ct2, Except.ok JVal.jnull, form2, Except.error e3⟩).status = 400
        ∧ (fastapi_v2_chat ⟨ct2, Except.ok JVal.jnull, form2, Except.error e3⟩).detail
            = some "Invalid \x27messages\x27 in form; expected JSON string")
    ∧ (∀ d : JVal, validateChatRequest d = none →
        (fastapi_v2_chat ⟨ct, Except.ok d, form, mp⟩).status = 400
        ∧ (fastapi_v2_chat ⟨ct, Except.ok d, form, mp⟩).detail
            = some "Invalid body. Expected \x7b messages: [\x7b role, content \x7d] \x7d")
    ∧ fastapi_v2_chat ⟨ct, Except.error e, form, mp⟩ = HResp.unhandled e
    ∧ fastapi_v1_chat env eo so llm ⟨ct, Except.error e, form, mp⟩ = HResp.unhandled e := by
  have hpA : (("/api/v2/chat" : String) == "/api/v2/chat") = true := by decide
  have hpB : (("/api/v1/chat" : String) == "/api/v2/chat") = false := by decide
  have hpC : (("/api/v1/chat" : String) == "/v2/chat") = false := by decide
  have hpD : (("/api/v1/chat" : String) == "/api/v1/chat") = true := by decide
  refine ⟨?_, ?_, ?_, ?_, ?_, ?_, ?_, ?_, ?_⟩
  · simp [std_do_POST, parse_post, hct, hpA, StdResp.status]
  · simp [std_do_POST, parse_post, hct, hpA, StdResp.detail]
  · simp [std_do_POST, parse_post, hct, hpB, hpC, hpD, StdResp.status]
  · simp [std_do_POST, parse_post, hct, hpB, hpC, hpD, StdResp.detail]
  · intro fs s e2 hmsg hs
    constructor <;>
      simp [std_do_POST, parse_post, hct, hpA, StdResp.status, StdResp.detail,
        stdV2Handle, stdV2Core, hmsg, pyJOr, jTruthy, hs]
  · intro ct2 e3 form2 hj hm hmsgs
    constructor <;> simp [fastapi_v2_chat, hj, hm, hmsgs, HResp.status, HResp.detail]
  · intro d hd
    constructor <;> simp [fastapi_v2_chat, hct, hd, HResp.status, HResp.detail]
  · simp [fastapi_v2_chat, hct]
  · simp [fastapi_v1_chat, hct]

theorem C6_bad_body_handling_witness :
    (std_do_POST envEmpty (Except.error "e") (Except.error "e")
        ⟨"/api/v2/chat", "application/json", Except.error "bad", [], Except.error "u"⟩).status
      = 400 :=
  (C6_bad_body_handling "application/json" (by decide) "bad" [] (Except.error "u")
    envEmpty (Except.error "e") (Except.error "e") ⟨Except.error "a", Except.error "b"⟩
    (Except.error "e") (Except.error "e")).1

/-- C7 counterexample: the standalone embedding helper `_hf_embed` attempts
its network call even when no Hugging Face credential is present (the token
only adds an Authorization header) — and may even return a vector — so
"returns unavailable without attempting a network call when no credential is
present" is false for it. -/
theorem C7_counterexample :
    envEmpty.huggingface_api_key = none
    ∧ (hf_embed envEmpty (Except.ok (HFParsed.matrix [[1]]))).2 = [NetCall.hfEmbedCall]
    ∧ (hf_embed envEmpty (Except.ok (HFParsed.matrix [[1]]))).1 = some [[1]] := by
  exact ⟨rfl, rfl, rfl⟩

/-- C7 amended: the chat_service embedding helper returns unavailable with no
network call when neither LLM credential is present, and returns unavailable
(never raising) on any transport failure; the standalone Hugging Face helper
also never raises and returns unavailable on transport or decoding failure,
but it performs exactly one network call regardless of credentials. -/
theorem C7_embedding_fail_soft (env : Env) (texts : List String) (e : String)
    (o : CallResult (List (List Int))) (o2 : CallResult HFParsed)
    (hk : truthy (pyOr env.openai_api_key env.openrouter_api_key) = false) :
    embed_texts env o texts = (none, [])
    ∧ (∀ env2 : Env, (embed_texts env2 (Except.error e) texts).1 = none)
    ∧ (∀ env2 : Env, (hf_embed env2 o2).2 = [NetCall.hfEmbedCall])
    ∧ (∀ env2 : Env, (hf_embed env2 (Except.error e)).1 = none)
    ∧ (∀ env2 : Env, (hf_embed env2 (Except.ok HFParsed.other)).1 = none) := by
  refine ⟨?_, ?_, ?_, ?_, ?_⟩
  · simp [embed_texts, hk]
  · intro env2
    by_cases hk2 : truthy (pyOr env2.openai_api_key env2.openrouter_api_key) <;>
      simp [embed_texts, hk2]
  · intro env2
    cases o2 with
    | error e2 => rfl
    | ok v => cases v <;> rfl
  · intro env2; rfl
  · intro env2; rfl

theorem C7_embedding_fail_soft_witness :
    embed_texts envEmpty (Except.error "timeout") ["What is anatomy?"] = (none, []) :=
  (C7_embedding_fail_soft envEmpty ["What is anatomy?"] "timeout" (Except.error "timeout")
    (Except.error "t") (by decide)).1

/-- C8: the retrieval metadata filter is a `must` conjunction of exact-match
clauses over exactly the non-empty provided fields; an empty field contributes
no clause, and with all three fields empty no filter object is built at all. -/
theorem C8_filter_conjunction (d y s : String) :
    (build_qdrant_filter d y s = none ↔ (d = "" ∧ y = "" ∧ s = ""))
    ∧ ∀ c : FilterClause,
        (∃ f, build_qdrant_filter d y s = some f ∧ c ∈ f) ↔
          ((c = ⟨"Department", d⟩ ∧ d ≠ "") ∨ (c = ⟨"Year", y⟩ ∧ y ≠ "")
            ∨ (c = ⟨"Semester", s⟩ ∧ s ≠ "")) := by
  by_cases hd : d = "" <;> by_cases hy : y = "" <;> by_cases hs : s = "" <;>
    refine ⟨by simp [build_qdrant_filter, hd, hy, hs], fun c => ?_⟩ <;>
    simp [build_qdrant_filter, hd, hy, hs]

theorem C8_filter_conjunction_witness :
    build_qdrant_filter "" "" "" = none :=
  ((C8_filter_conjunction "" "" "").1).mpr ⟨rfl, rfl, rfl⟩

theorem qdrant_search_vec_no_url (env : Env) (qo : CallResult (List Payload))
    (vec : List Int) (qf : Option (List FilterClause)) (lim : Nat)
    (hu : truthy env.qdrant_url = false) :
    qdrant_search_vec env qo vec qf lim = ([], []) := by
  simp [qdrant_search_vec, hu]

/-- With no vector index configured the standalone v1 pipeline retrieves
nothing, performs no Qdrant call, replies with the template carrying the
question, and reports `used_vector = false` whenever the embedding came back
unavailable. -/
theorem gen_v1_std_no_url (env : Env) (hf : CallResult HFParsed)
    (qo : CallResult (List Payload)) (p : V1Payload)
    (hu : truthy env.qdrant_url = false) :
    (generate_v1_reply_std env hf qo p).contexts_count = 0
    ∧ NetCall.qdrantCall ∉ (generate_v1_reply_std env hf qo p).calls
    ∧ ((hf_embed env hf).1 = none → (generate_v1_reply_std env hf qo p).used_vector = false)
    ∧ (generate_v1_reply_std env hf qo p).reply
        = "Response: Based on your context (Department=" ++ p.department ++ ", Year="
          ++ p.year ++ ", Semester=" ++ p.semester
          ++ "), here\x27s a helpful response to your question: " ++ p.user_question := by
  have hv := fun v qf lim => qdrant_search_vec_no_url env qo v qf lim hu
  by_cases ht : p.user_type = 0 <;> by_cases hq : p.user_question = "" <;>
    (cases hf with
     | error e =>
       simp [generate_v1_reply_std, hf_embed, hv, ht, hq, joinSep,
         qdrant_contexts_from_results]
     | ok hp0 =>
       cases hp0 with
       | numbers v =>
         by_cases hv0 : v.isEmpty <;>
           simp [generate_v1_reply_std, hf_embed, hv, ht, hq, hv0, joinSep,
             qdrant_contexts_from_results]
       | matrix m =>
         cases m with
         | nil =>
           simp [generate_v1_reply_std, hf_embed, hv, ht, hq, joinSep,
             qdrant_contexts_from_results]
         | cons v tl =>
           by_cases hv0 : v.isEmpty <;>
             simp [generate_v1_reply_std, hf_embed, hv, ht, hq, hv0, joinSep,
               qdrant_contexts_from_results]
       | other =>
         simp [generate_v1_reply_std, hf_embed, hv, ht, hq, joinSep,
           qdrant_contexts_from_results])

/-- With no vector index configured the chat_service v1 pipeline performs
neither a Qdrant nor an embedding call, in every LLM branch. -/
theorem gen_v1_llm_no_vector_calls (env : Env) (eo : CallResult (List (List Int)))
    (so : CallResult (List Payload)) (llm : LlmOracle) (req : ChatV1Request)
    (hu : truthy env.qdrant_url = false) :
    NetCall.qdrantCall ∉ (generate_v1_llm_reply env eo so llm req).calls
    ∧ NetCall.embedCall ∉ (generate_v1_llm_reply env eo so llm req).calls := by
  have hq := qdrant_search_no_url env eo so req.user_question hu
  unfold generate_v1_llm_reply
  by_cases h1 : truthy env.openrouter_api_key
  · cases hr : llm.routing <;> simp [h1, hr, hq]
  · by_cases h2 : truthy env.openai_api_key
    · cases hd : llm.direct <;> simp [h1, h2, hd, hq]
    · simp [h1, h2, hq]

/-- In every branch where no remote chat completion succeeds, the chat_service
v1 reply textually contains the raw question (it is a suffix of the reply). -/
theorem gen_v1_llm_fallback_contains (env : Env) (eo : CallResult (List (List Int)))
    (so : CallResult (List Payload)) (llm : LlmOracle) (req : ChatV1Request) :
    (truthy env.openrouter_api_key = false → truthy env.openai_api_key = false →
      strContains (generate_v1_llm_reply env eo so llm req).resp.reply req.user_question = true)
    ∧ (∀ e, truthy env.openrouter_api_key = true → llm.routing = .error e →
      strContains (generate_v1_llm_reply env eo so llm req).resp.reply req.user_question = true)
    ∧ (∀ e, truthy env.openrouter_api_key = false → truthy env.openai_api_key = true →
      llm.direct = .error e →
      strContains (generate_v1_llm_reply env eo so llm req).resp.reply req.user_question
        = true) := by
  refine ⟨?_, ?_, ?_⟩
  · intro h1 h2
    simp only [generate_v1_llm_reply, h1, h2, Bool.false_eq_true, if_false]
    exact strContains_append_self _ _
  · intro e h1 herr
    simp only [generate_v1_llm_reply, h1, herr, if_true]
    exact strContains_append_self _ _
  · intro e h1 h2 herr
    simp only [generate_v1_llm_reply, h1, h2, herr, Bool.false_eq_true, if_false, if_true]
    exact strContains_append_self _ _

/-- A v1 request whose question a successful provider reply need not repeat. -/
def reqC9 : ChatV1Request := ⟨0, "u", "s", "FooBar", "D", "Y", "S", none⟩

/-- C9 counterexample, two concrete runs with `user_type = 0` and no vector
index configured: (a) on chat_service, a successful routing-provider call
returns the provider text verbatim ("OK"), which does not contain the
question; (b) on the standalone server, a successful embedding sets
`used_vector = true` although no vector index is configured. -/
theorem C9_counterexample :
    (reqC9.user_type = 0 ∧ envOR.qdrant_url = none
      ∧ strContains (generate_v1_llm_reply envOR (Except.error "x") (Except.error "x")
          ⟨Except.ok (some "OK"), Except.error "y"⟩ reqC9).resp.reply reqC9.user_question
        = false)
    ∧ (pC2.user_type = 0 ∧ envEmpty.qdrant_url = none
      ∧ (generate_v1_reply_std envEmpty (Except.ok (HFParsed.matrix [[1]]))
          (Except.ok []) pC2).used_vector = true) := by
  exact ⟨⟨rfl, rfl, by decide⟩, ⟨rfl, rfl, by decide⟩⟩

/-- C9 amended: for `user_type = 0` with no vector-index endpoint configured,
the retrieved contexts are empty and no vector-search (or embedding, for
chat_service) call happens; the reply contains the question text in every
standalone branch and in every chat_service branch where no remote LLM call
succeeds; and the standalone `used_vector` flag reflects embedding success —
it is false whenever the embedding is unavailable — rather than vector-index
use. -/
theorem C9_no_vector_index (env : Env) (hu : truthy env.qdrant_url = false)
    (eo : CallResult (List (List Int))) (so : CallResult (List Payload)) (llm : LlmOracle)
    (req : ChatV1Request) (hreq : req.user_type = 0)
    (hf : CallResult HFParsed) (qo : CallResult (List Payload))
    (p : V1Payload) (hp : p.user_type = 0) :
    (generate_v1_reply_std env hf qo p).contexts_count = 0
    ∧ NetCall.qdrantCall ∉ (generate_v1_reply_std env hf qo p).calls
    ∧ strContains (generate_v1_reply_std env hf qo p).reply p.user_question = true
    ∧ ((hf_embed env hf).1 = none → (generate_v1_reply_std env hf qo p).used_vector = false)
    ∧ NetCall.qdrantCall ∉ (generate_v1_llm_reply env eo so llm req).calls
    ∧ NetCall.embedCall ∉ (generate_v1_llm_reply env eo so llm req).calls
    ∧ (truthy env.openrouter_api_key = false → truthy env.openai_api_key = false →
      strContains (generate_v1_llm_reply env eo so llm req).resp.reply req.user_question = true)
    ∧ (∀ e, truthy env.openrouter_api_key = true → llm.routing = .error e →
      strContains (generate_v1_llm_reply env eo so llm req).resp.reply req.user_question = true)
    ∧ (∀ e, truthy env.openrouter_api_key = false → truthy env.openai_api_key = true →
      llm.direct = .error e →
      strContains (generate_v1_llm_reply env eo so llm req).resp.reply req.user_question
        = true) := by
  obtain ⟨hstd1, hstd2, hstd3, hstd4⟩ := gen_v1_std_no_url env hf qo p hu
  obtain ⟨hllm1, hllm2⟩ := gen_v1_llm_no_vector_calls env eo so llm req hu
  obtain ⟨hf1, hf2, hf3⟩ := gen_v1_llm_fallback_contains env eo so llm req
  refine ⟨hstd1, hstd2, ?_, hstd3, hllm1, hllm2, hf1, hf2, hf3⟩
  rw [hstd4]
  exact strContains_append_self _ _

theorem C9_no_vector_index_witness :
    strContains (generate_v1_reply_std envEmpty (Except.error "down")
        (Except.error "down") pC2).reply pC2.user_question = true :=
  (C9_no_vector_index envEmpty (by decide) (Except.error "x") (Except.error "x")
    ⟨Except.error "a", Except.error "b"⟩ reqC9 (by decide) (Except.error "down")
    (Except.error "down") pC2 (by decide)).2.2.1

end MedOrbis
